import Mathlib

/-!
Verification of the signup-form example (`src/index.js`).

The repository declares a three-field form (`firstName`, `lastName`,
`email`) via `useFormik`, with a Yup validation schema and an `onSubmit`
callback.  The schema, its messages and limits, and the initial values are
translated directly from `src/index.js`.  The form-state controller itself
(the validation engine and submission controller) is provided by the
external formik/yup libraries and is not part of this repository's source;
those parts are modelled from the specification's contracts, as marked on
each definition.
-/

namespace FormikExample

/-- The fixed field set of the form, from the keys of `initialValues` in
`src/index.js` line 19. -/
inductive Field where
  | firstName
  | lastName
  | email
deriving DecidableEq, Repr

/-- A Values mapping: each field holds a string, or is unset (`none`,
mirroring a JavaScript `undefined`). -/
structure Values where
  firstName : Option String
  lastName : Option String
  email : Option String
deriving DecidableEq, Repr

/-- Field lookup in a Values mapping. -/
def Values.get (v : Values) : Field → Option String
  | .firstName => v.firstName
  | .lastName => v.lastName
  | .email => v.email

/-- Field update in a Values mapping (a change event always stores a
string, never unsets a field). -/
def Values.set (v : Values) (f : Field) (s : String) : Values :=
  match f with
  | .firstName => { v with firstName := some s }
  | .lastName => { v with lastName := some s }
  | .email => { v with email := some s }

/-- A declarative validation rule with its error message, the tagged-variant
rule type of the spec's design notes (`Required`, `MaxLength(n)`, `Email`). -/
inductive Rule where
  | required (msg : String)
  | maxLen (limit : Nat) (msg : String)
  | emailFmt (msg : String)
deriving DecidableEq, Repr

/-- The message carried by a rule. -/
def Rule.msg : Rule → String
  | .required m => m
  | .maxLen _ m => m
  | .emailFmt m => m

/-- Split a character list at every occurrence of the separator `c`. -/
def splitOnChar (c : Char) : List Char → List (List Char)
  | [] => [[]]
  | x :: xs =>
    match splitOnChar c xs with
    | [] => [[]]
    | g :: gs => if x = c then [] :: g :: gs else (x :: g) :: gs

/-- Modelled from the spec: a standard email address-shape check (the
actual check lives in the external Yup library, absent from this
repository's source).  A string has email shape when it splits at `@` into
exactly one non-empty local part and one non-empty domain, and the domain
has at least two non-empty dot-separated labels. -/
def isEmailShape (s : String) : Bool :=
  match splitOnChar '@' s.toList with
  | [l, d] =>
    !l.isEmpty && !d.isEmpty &&
      (let parts := splitOnChar '.' d
       decide (2 ≤ parts.length) && parts.all (fun p => !p.isEmpty))
  | _ => false

/-- Modelled from the spec: whether a rule fails on a field value (the
rule semantics live in the external Yup library, absent from this
repository's source).  `required` fails on empty string or unset;
`max N characters` compares string length against `N` inclusive and is
vacuous on an unset field; `email` format failure is reported iff the
field is non-empty and fails the address-shape check. -/
def Rule.fails : Rule → Option String → Bool
  | .required _, v => v.isNone || v == some ""
  | .maxLen n _, v =>
    match v with
    | some s => decide (n < s.length)
    | none => false
  | .emailFmt _, v =>
    match v with
    | some s => !(s == "") && !isEmailShape s
    | none => false

/-- The validation schema of `src/index.js` lines 28-36: the list of rules
declared for each field, in declaration order. -/
def fieldRules : Field → List Rule
  | .firstName => [.maxLen 15 "Must be 15 characters or less", .required "Required"]
  | .lastName => [.maxLen 20 "Must be 20 characters or less", .required "Required"]
  | .email => [.emailFmt "Invalid email address", .required "Required"]

/-- Modelled from the spec: the validation engine for one field (provided
by the external Yup library, absent from this repository's source).  The
message of the first rule, in declaration order, that fails on the value;
`none` when every rule passes. -/
def validateField (rules : List Rule) (v : Option String) : Option String :=
  rules.findSome? (fun r => if r.fails v then some r.msg else none)

/-- An Errors mapping: at most one human-readable message per field. -/
structure Errors where
  firstName : Option String
  lastName : Option String
  email : Option String
deriving DecidableEq, Repr

/-- Field lookup in an Errors mapping. -/
def Errors.get (e : Errors) : Field → Option String
  | .firstName => e.firstName
  | .lastName => e.lastName
  | .email => e.email

/-- An Errors mapping is empty when no field carries a message. -/
def Errors.isEmpty (e : Errors) : Bool :=
  e.firstName.isNone && e.lastName.isNone && e.email.isNone

/-- Modelled from the spec: `validate(values, schema) -> Errors` (provided
by the external Yup library, absent from this repository's source), run
over the entire Values mapping with the fixed schema `fieldRules`. -/
def validate (v : Values) : Errors :=
  { firstName := validateField (fieldRules .firstName) v.firstName
    lastName := validateField (fieldRules .lastName) v.lastName
    email := validateField (fieldRules .email) v.email }

/-- The aggregate form state: Values, Touched and Errors. -/
structure FormState where
  values : Values
  touched : Field → Bool
  errors : Errors

/-- The caller-supplied defaults, from `initialValues` in `src/index.js`
line 19. -/
def initialValues : Values :=
  { firstName := some "", lastName := some "", email := some "" }

/-- Modelled from the spec: the form state at mount — Values set to the
caller-supplied defaults, Touched all false, Errors empty until the first
validation pass (the mount behaviour lives in the external formik
library, absent from this repository's source). -/
def initialFormState : FormState :=
  { values := initialValues
    touched := fun _ => false
    errors := { firstName := none, lastName := none, email := none } }

/-- Modelled from the spec: re-run the validation engine over the current
Values, storing the result in Errors (formik re-validates after each
change and blur event). -/
def revalidate (s : FormState) : FormState :=
  { s with errors := validate s.values }

/-- Modelled from the spec: the submission controller (formik's
`handleSubmit`, absent from this repository's source).  On a submit
attempt all fields are marked Touched and the validation engine is run
over the entire current Values; the caller-supplied `onSubmit` callback
is invoked, with exactly the current Values, iff the resulting Errors
mapping is empty.  The second component is the callback invocation:
`some v` records exactly one invocation with payload `v`, `none` records
no invocation. -/
def handleSubmit (s : FormState) : FormState × Option Values :=
  let errs := validate s.values
  let s' : FormState := { values := s.values, touched := fun _ => true, errors := errs }
  (s', if errs.isEmpty then some s.values else none)

/-- The user-interface events a form instance processes. -/
inductive Op where
  | setValue (f : Field) (s : String)
  | setTouched (f : Field)
  | submit

/-- Modelled from the spec: one synchronous event-handler step.
`setValue` (a change event) updates the field and re-validates;
`setTouched` (a blur event) idempotently marks the field touched and
re-validates; `submit` runs the submission controller. -/
def step (s : FormState) : Op → FormState
  | .setValue f str => revalidate { s with values := s.values.set f str }
  | .setTouched f => revalidate { s with touched := fun g => s.touched g || decide (g = f) }
  | .submit => (handleSubmit s).1

/-- Run a sequence of events from a starting state. -/
def run (s : FormState) : List Op → FormState
  | [] => s
  | op :: ops => run (step s op) ops

/-- Modelled from the spec: the spec's own description of the engine —
"applies each field's declared rules in the order declared; first failing
rule per field wins (short-circuit)" — written as direct recursion over
the declared rule list, to be compared with `validateField`. -/
def firstFailingMsg (v : Option String) : List Rule → Option String
  | [] => none
  | r :: rs => if r.fails v then some r.msg else firstFailingMsg v rs

/-- Helper: `validateField` (a fold over `List.findSome?`) agrees with the
spec's direct first-failing-rule recursion on every rule list. -/
theorem validateField_eq_firstFailingMsg (rules : List Rule) (v : Option String) :
    validateField rules v = firstFailingMsg v rules := by
  induction rules with
  | nil => rfl
  | cons r rs ih =>
    by_cases hr : r.fails v
    · simp [validateField, firstFailingMsg, List.findSome?, hr]
    · simp only [validateField, firstFailingMsg, List.findSome?] at ih ⊢
      simp [hr, ih]

/-- Claim C1: the caller-supplied submit callback is invoked iff the Errors
mapping is empty at submit time; when it is, the callback is invoked exactly
once with exactly the current Values.  The conjuncts also check the spec's
two scenarios: `{firstName: "", lastName: "Smith", email: "a@b.com"}` is
rejected with `Errors.firstName = Required`, and
`{firstName: "Jane", lastName: "Doe", email: "jane@doe.com"}` invokes the
callback with exactly those Values. -/
theorem submit_callback_iff_errors_empty :
    (∀ s : FormState,
      (handleSubmit s).2 = if (validate s.values).isEmpty then some s.values else none)
    ∧ (handleSubmit
        { values := { firstName := some "", lastName := some "Smith", email := some "a@b.com" }
          touched := fun _ => false
          errors := { firstName := none, lastName := none, email := none } }).2 = none
    ∧ (validate { firstName := some "", lastName := some "Smith", email := some "a@b.com" }).firstName
        = some "Required"
    ∧ (handleSubmit
        { values := { firstName := some "Jane", lastName := some "Doe", email := some "jane@doe.com" }
          touched := fun _ => false
          errors := { firstName := none, lastName := none, email := none } }).2
        = some { firstName := some "Jane", lastName := some "Doe", email := some "jane@doe.com" } :=
  ⟨fun _ => rfl, rfl, rfl, rfl⟩

/-- Claim C2: for every Values mapping in which a required field holds the
empty string or is unset, validation yields `Required` for that field. -/
theorem validate_required_on_empty_or_unset (v : Values) (f : Field)
    (h : v.get f = none ∨ v.get f = some "") :
    (validate v).get f = some "Required" := by
  cases f <;> rcases h with h | h <;> simp only [Values.get] at h <;>
    simp [validate, Errors.get, validateField, fieldRules, Rule.fails, Rule.msg,
      List.findSome?, h]

/-- Witness for C2 at a concrete input: `firstName` holds the empty string
in the initial Values, and validation reports `Required` for it. -/
theorem validate_required_on_empty_or_unset_witness :
    (initialValues.get Field.firstName = none ∨ initialValues.get Field.firstName = some "")
    ∧ (validate initialValues).get Field.firstName = some "Required" :=
  ⟨Or.inr rfl, validate_required_on_empty_or_unset initialValues Field.firstName (Or.inr rfl)⟩

/-- Claim C3: the firstName maximum-length rule compares string length
against 15 inclusively: 16 or more characters yields
`Must be 15 characters or less`, exactly 15 characters yields no error. -/
theorem firstName_max_length_15 (v : Values) (s : String) (h : v.firstName = some s) :
    (16 ≤ s.length → (validate v).firstName = some "Must be 15 characters or less")
    ∧ (s.length = 15 → (validate v).firstName = none) := by
  constructor
  · intro hs
    have h15 : 15 < s.length := by omega
    simp [validate, validateField, fieldRules, Rule.fails, Rule.msg, List.findSome?, h, h15]
  · intro hs
    have h15 : ¬(15 < s.length) := by omega
    have hne : s ≠ "" := by
      intro he
      rw [he] at hs
      simp at hs
    simp [validate, validateField, fieldRules, Rule.fails, Rule.msg, List.findSome?,
      h, h15, hne]

/-- Witness for C3 at concrete inputs: a 16-character firstName is rejected
as too long, a 15-character firstName produces no error. -/
theorem firstName_max_length_15_witness :
    (validate { firstName := some "abcdefghijklmnop", lastName := some "Doe", email := some "a@b.com" }).firstName = some "Must be 15 characters or less"
    ∧ (validate { firstName := some "abcdefghijklmno", lastName := some "Doe", email := some "a@b.com" }).firstName = none :=
  ⟨(firstName_max_length_15
      { firstName := some "abcdefghijklmnop", lastName := some "Doe", email := some "a@b.com" }
      "abcdefghijklmnop" rfl).1 (by decide),
   (firstName_max_length_15
      { firstName := some "abcdefghijklmno", lastName := some "Doe", email := some "a@b.com" }
      "abcdefghijklmno" rfl).2 (by decide)⟩

/-- Claim C4: an email-format error is reported iff the email value is
non-empty and fails the address-shape check; an empty email value reports
`Required` instead. -/
theorem email_format_error_iff (v : Values) (s : String) (h : v.email = some s) :
    ((validate v).email = some "Invalid email address" ↔ s ≠ "" ∧ isEmailShape s = false)
    ∧ (s = "" → (validate v).email = some "Required") := by
  constructor
  · by_cases he : s = ""
    · subst he
      simp [validate, validateField, fieldRules, Rule.fails, Rule.msg, List.findSome?, h]
    · by_cases hs : isEmailShape s <;>
        simp [validate, validateField, fieldRules, Rule.fails, Rule.msg, List.findSome?,
          h, he, hs]
  · intro he
    subst he
    simp [validate, validateField, fieldRules, Rule.fails, Rule.msg, List.findSome?, h]

/-- Witness for C4 at concrete inputs: `"bad"` is non-empty, fails the
shape check and is reported as invalid; the empty email reports
`Required`. -/
theorem email_format_error_iff_witness :
    (validate { firstName := some "J", lastName := some "D", email := some "bad" }).email
      = some "Invalid email address"
    ∧ (validate { firstName := some "J", lastName := some "D", email := some "" }).email
      = some "Required" :=
  ⟨(email_format_error_iff
      { firstName := some "J", lastName := some "D", email := some "bad" } "bad" rfl).1.mpr
      (by decide),
   (email_format_error_iff
      { firstName := some "J", lastName := some "D", email := some "" } "" rfl).2 rfl⟩

/-- Claim C5: for every Values mapping and every field of the fixed schema,
validation evaluates the field's declared rules in declaration order and
the first failing rule determines the field's message (`firstFailingMsg` is
the spec's short-circuit recursion); the Errors mapping holds an
`Option String` per field, hence at most one message per field. -/
theorem validate_first_failing_rule_wins :
    ∀ (v : Values) (f : Field),
      (validate v).get f = firstFailingMsg (v.get f) (fieldRules f) := by
  intro v f
  cases f <;> exact validateField_eq_firstFailingMsg _ _

/-- Helper for C6: a single event-handler step never un-touches a field. -/
theorem touched_step_mono (s : FormState) (op : Op) (f : Field)
    (h : s.touched f = true) : (step s op).touched f = true := by
  cases op <;> simp [step, revalidate, handleSubmit, h]

/-- Claim C6: Touched is monotonic — once a field is touched, it stays
touched across every sequence of change, blur and submit events within one
form instance's lifetime. -/
theorem touched_monotonic (s : FormState) (ops : List Op) (f : Field)
    (h : s.touched f = true) : (run s ops).touched f = true := by
  induction ops generalizing s with
  | nil => exact h
  | cons op ops ih => exact ih _ (touched_step_mono s op f h)

/-- Witness for C6 at a concrete input: after a blur on firstName, a
further change and a submit attempt leave firstName touched. -/
theorem touched_monotonic_witness :
    (step initialFormState (Op.setTouched Field.firstName)).touched Field.firstName = true
    ∧ (run (step initialFormState (Op.setTouched Field.firstName))
        [Op.setValue Field.firstName "x", Op.submit]).touched Field.firstName = true :=
  ⟨rfl,
   touched_monotonic (step initialFormState (Op.setTouched Field.firstName))
     [Op.setValue Field.firstName "x", Op.submit] Field.firstName rfl⟩

/-- Claim C7: on every submit attempt, regardless of the current Values,
every field is marked Touched, the validation engine is run over the
entire current Values before the accept/reject decision, and the Values
are left unchanged. -/
theorem submit_marks_all_touched_and_validates (s : FormState) (f : Field) :
    ((handleSubmit s).1).touched f = true
    ∧ ((handleSubmit s).1).errors = validate s.values
    ∧ ((handleSubmit s).1).values = s.values :=
  ⟨rfl, rfl, rfl⟩

/-- Claim C8: validation is deterministic, side-effect-free and idempotent:
re-running validation is a no-op on an already-validated state, and the
Errors produced depend only on the Values (no hidden state — two states
sharing Values validate to identical Errors). -/
theorem validate_deterministic_idempotent :
    (∀ s : FormState, revalidate (revalidate s) = revalidate s)
    ∧ (∀ s t : FormState, s.values = t.values →
        (revalidate s).errors = (revalidate t).errors) := by
  refine ⟨fun s => rfl, fun s t h => ?_⟩
  simp [revalidate, h]

/-- Witness for C8 at concrete inputs: the initial state and the state
after a submit attempt share Values (but differ in Touched and Errors),
and re-validating either yields identical Errors. -/
theorem validate_deterministic_idempotent_witness :
    initialFormState.values = (handleSubmit initialFormState).1.values
    ∧ (revalidate initialFormState).errors
        = (revalidate (handleSubmit initialFormState).1).errors :=
  ⟨rfl, validate_deterministic_idempotent.2 initialFormState (handleSubmit initialFormState).1 rfl⟩

/-- Claim C9: at form-instance creation the FormState has Values set to the
caller-supplied defaults (all three fields the empty string), every field
untouched, and Errors empty. -/
theorem initial_form_state_spec :
    initialFormState.values = initialValues
    ∧ initialValues = { firstName := some "", lastName := some "", email := some "" }
    ∧ (∀ f : Field, initialFormState.touched f = false)
    ∧ initialFormState.errors = { firstName := none, lastName := none, email := none } :=
  ⟨rfl, rfl, fun _ => rfl, rfl⟩

/-- Claim C10: the lastName field has a maximum-length rule of 20
characters inclusive with message `Must be 20 characters or less`: 21 or
more characters yields that message, at most 20 characters never does. -/
theorem lastName_max_length_20 (v : Values) (s : String) (h : v.lastName = some s) :
    (21 ≤ s.length → (validate v).lastName = some "Must be 20 characters or less")
    ∧ (s.length ≤ 20 → (validate v).lastName ≠ some "Must be 20 characters or less") := by
  constructor
  · intro hs
    have h20 : 20 < s.length := by omega
    simp [validate, validateField, fieldRules, Rule.fails, Rule.msg, List.findSome?, h, h20]
  · intro hs
    have h20 : ¬(20 < s.length) := by omega
    by_cases he : s = ""
    · subst he
      simp [validate, validateField, fieldRules, Rule.fails, Rule.msg, List.findSome?, h]
    · simp [validate, validateField, fieldRules, Rule.fails, Rule.msg, List.findSome?,
        h, h20, he]

/-- Witness for C10 at concrete inputs: a 21-character lastName is rejected
as too long, a 3-character lastName is not. -/
theorem lastName_max_length_20_witness :
    (validate { firstName := some "J", lastName := some "abcdefghijklmnopqrstu", email := some "a@b.com" }).lastName = some "Must be 20 characters or less"
    ∧ (validate { firstName := some "J", lastName := some "Doe", email := some "a@b.com" }).lastName ≠ some "Must be 20 characters or less" :=
  ⟨(lastName_max_length_20
      { firstName := some "J", lastName := some "abcdefghijklmnopqrstu", email := some "a@b.com" }
      "abcdefghijklmnopqrstu" rfl).1 (by decide),
   (lastName_max_length_20
      { firstName := some "J", lastName := some "Doe", email := some "a@b.com" }
      "Doe" rfl).2 (by decide)⟩

end FormikExample
